import Mathlib

/-!
Shallow embedding of `Entrainment.py`: a Schiller–Naumann drag-coefficient
correlation (`find_cd_from_rep`) and the entrainment pipeline
(`run_all_calculations`): droplet diameter, a drag/Reynolds fixed-point
iteration, regime exponent, onset correction, and the final entrainment
fraction.

Python floats are modelled by real numbers; the `float('inf')` sentinel
returned by `find_cd_from_rep` for non-positive Reynolds numbers is modelled
by `(⊤ : EReal)`.  Division is the total (Mathlib) division; every division
the pipeline performs on the paths analysed below has a nonzero (or infinite)
denominator, where real division agrees with Python's, and division of a
finite value by `⊤` yields `0` exactly as float division by `inf` does.
The hardcoded script inputs (lines 31–39 of the source) become the record
`FlowParameters`, with the script's literal values as `defaultParams`.
-/

namespace Entrainment

noncomputable section

open Real

/-- The Schiller–Naumann expression of source line 13:
`(24/re_p)*(1 + 0.15*re_p^0.687) + 0.42/(1 + 42500/re_p^1.16)`. -/
def cd_curve (re_p : ℝ) : ℝ :=
  (24 / re_p) * (1 + 0.15 * re_p ^ (0.687 : ℝ))
    + 0.42 / (1 + 42500 / re_p ^ (1.16 : ℝ))

/-- Schiller–Naumann drag correlation, source lines 7–14: for `re_p ≤ 0`
returns the positive-infinity sentinel (`float('inf')` ↦ `⊤ : EReal`),
otherwise the line-13 expression `cd_curve re_p`. -/
def find_cd_from_rep (re_p : ℝ) : EReal :=
  if re_p ≤ 0 then ⊤
  else ((cd_curve re_p : ℝ) : EReal)

/-- Absolute value on `EReal`, modelling Python's `abs` on floats (the loop
applies it to `cd_new - cd_guess`, which can involve the infinity sentinel). -/
def absE (x : EReal) : EReal := max x (-x)

/-- Outcome of the fixed-point loop, source lines 59–78: the `return` on a
non-positive guess (lines 60–62), the `break` on convergence (lines 69–73,
recording `i+1` and the accepted pair), and the `for`/`else` fall-through
(lines 75–78, recording the last computed pair). -/
inductive SolveResult where
  | diverged : SolveResult
  | converged (iters : ℕ) (re_p : ℝ) (cd : EReal) : SolveResult
  | exhausted (re_p : ℝ) (cd : EReal) : SolveResult

/-- The fixed-point loop body, source lines 59–78.  `fuel` counts the
iterations that may still follow the current one (the source runs the body at
most `max_iterations = 500` times, so the pipeline starts with `fuel = 499`);
`i` is the 0-based index of the current iteration.  The guess is an `EReal`
because `find_cd_from_rep` can return the infinity sentinel, which the source
feeds back into the next iteration unchanged. -/
def solveLoop (d g rho_l rho_g mu_g tol : ℝ) :
    ℕ → ℕ → EReal → SolveResult
  | fuel, i, cd_guess =>
    if cd_guess ≤ 0 then .diverged
    else
      let u_t : ℝ :=
        Real.sqrt ((((4 * d * g * rho_l : ℝ) : EReal) /
          (((3 : ℝ) : EReal) * cd_guess * ((rho_g : ℝ) : EReal))).toReal)
      let re_p_new : ℝ := d * u_t * rho_g / mu_g
      let cd_new : EReal := find_cd_from_rep re_p_new
      if absE (cd_new - cd_guess) < ((tol : ℝ) : EReal) then
        .converged (i + 1) re_p_new cd_new
      else
        match fuel with
        | 0 => .exhausted re_p_new cd_new
        | n + 1 => solveLoop d g rho_l rho_g mu_g tol n (i + 1) cd_new

/-- Regime exponent, source lines 82–87: `m = 1` for `Re_p < 1.92`,
`m = 0.6` for `1.92 ≤ Re_p < 500`, `m = 0` for `Re_p ≥ 500`. -/
def regime_m (re_p : ℝ) : ℝ :=
  if re_p < 1.92 then 1 else if re_p < 500 then 0.6 else 0

/-- The physical inputs of the pipeline (hardcoded at source lines 27–39;
the spec's `FlowParameters`). -/
structure FlowParameters where
  g : ℝ
  rho_l : ℝ
  rho_g : ℝ
  mu_g : ℝ
  mu_l : ℝ
  d_capital : ℝ
  ug : ℝ
  sigma : ℝ
  w_l : ℝ
  a2 : ℝ

/-- The script's hardcoded parameter values, source lines 27–39. -/
def defaultParams : FlowParameters :=
  ⟨9.81, 800, 70, 0.00001, 0.0001, 0.6, 10, 0.0115, 0.5, 9e-8⟩

/-- Outcome of one pipeline run: the `ValueError` exits (source lines 45, 95,
100, 105, 126, 133), the divergence abort (lines 60–62), the `m = 2` abort
(lines 119–121), or success carrying the non-convergence warning flag
(line 76) and every reported quantity. -/
inductive RunOutcome where
  | validationError : RunOutcome
  | cdDiverged : RunOutcome
  | mEqualsTwo : RunOutcome
  | success (nonConverged : Bool) (d re_p : ℝ) (cd : EReal)
      (m omega relfc gamma_c em e : ℝ) : RunOutcome

/-- Steps 3–4 of the pipeline, source lines 93–139, with the regime exponent
`m` (a local variable of the source) taken as an argument: the onset
correction (`omega`, `Re_LFC`, `gamma_c`, `E_M`) and the final entrainment
fraction. -/
def onset_and_final (p : FlowParameters) (nonConverged : Bool)
    (d re_p : ℝ) (cd : EReal) (m : ℝ) : RunOutcome :=
  if p.mu_g = 0 ∨ p.rho_l = 0 then .validationError
  else
    let omega := (p.mu_l / p.mu_g) * Real.sqrt (p.rho_g / p.rho_l)
    if omega ≤ 0 then .validationError
    else
      let relfc := 7.3 * (Real.logb 10 omega) ^ 3
        + 44.2 * (Real.logb 10 omega) ^ 2 - 263 * (Real.logb 10 omega) + 439
      let gamma_c := relfc * p.mu_l / 4
      if p.w_l = 0 then .validationError
      else
        let em := 1 - (Real.pi * p.d_capital * gamma_c / p.w_l)
        let term1 := Real.sqrt (p.d_capital * p.ug ^ 3 * p.rho_l * p.rho_g)
          / p.sigma
        let numerator_term2 := p.rho_g ^ ((1 : ℝ) - m) * p.mu_g ^ m
        let denominator_term2 := d ^ ((1 : ℝ) + m) * p.g * (p.rho_l - p.rho_g)
        if (2 : ℝ) - m = 0 then .mEqualsTwo
        else
          let exponent_term2 := 1 / (2 - m)
          if denominator_term2 ≤ 0 then .validationError
          else
            let term2 := (numerator_term2 / denominator_term2) ^ exponent_term2
            let rhs := p.a2 * term1 * term2
            if (1 : ℝ) + rhs = 0 then .validationError
            else
              .success nonConverged d re_p cd m omega relfc gamma_c em
                (em * (rhs / (1 + rhs)))

/-- Steps 3–4 of the pipeline, source lines 82–139: the regime exponent is
computed from the Reynolds number the loop produced (lines 82–87), and the
rest of the pipeline follows. -/
def downstream (p : FlowParameters) (nonConverged : Bool)
    (d re_p : ℝ) (cd : EReal) : RunOutcome :=
  onset_and_final p nonConverged d re_p cd (regime_m re_p)

/-- Steps 2–4 of the pipeline given the droplet diameter `d`: run the
fixed-point loop (source lines 54–78: `max_iterations = 500`,
`tolerance = 1e-6`, `cd_guess = 0.4`) and feed its outcome downstream. -/
def after_diameter (p : FlowParameters) (d : ℝ) : RunOutcome :=
  match solveLoop d p.g p.rho_l p.rho_g p.mu_g 0.000001 499 0
      (((0.4 : ℝ)) : EReal) with
  | .diverged => .cdDiverged
  | .converged _ re_p cd => downstream p false d re_p cd
  | .exhausted re_p cd => downstream p true d re_p cd

/-- The whole pipeline, source lines 17–139, parametrised by
`FlowParameters`: validation of `σ`, `ρ_G`, `U_G` (lines 44–45), droplet
diameter by Eq. 25 (line 48), then the loop and the downstream stages. -/
def run_all_calculations (p : FlowParameters) : RunOutcome :=
  if p.sigma ≤ 0 ∨ p.rho_g ≤ 0 ∨ p.ug ≤ 0 then .validationError
  else
    after_diameter p
      (Real.sqrt ((p.d_capital * p.sigma * 0.0091) / (p.rho_g * p.ug ^ 2)))

/-- Whether a run reached the final `E` computation and returned it. -/
def RunOutcome.isSuccess : RunOutcome → Bool
  | .success _ _ _ _ _ _ _ _ _ _ => true
  | _ => false

/-- The final entrainment fraction of a successful run (`0` otherwise). -/
def RunOutcome.eValue : RunOutcome → ℝ
  | .success _ _ _ _ _ _ _ _ _ e => e
  | _ => 0

/-- A parameter set (negative viscosities, `A2 = -1`) on which the pipeline
completes successfully: the loop's first Reynolds candidate is negative, the
drag correlation returns the infinity sentinel, the loop exhausts its budget
in the sentinel state, and every downstream stage still evaluates. -/
def cexParams : FlowParameters :=
  ⟨10, 400, 4, -1, -10, 1, 1, 1, 1, -1⟩

/-- A simple parameter set (`ρ_L = 100`, everything else `1`, `A2 = 0`) on
which every guard of the onset and final stages passes. -/
def onsetProbeParams : FlowParameters :=
  ⟨1, 100, 1, 1, 1, 1, 1, 1, 1, 0⟩

end

/-! ### Basic facts about the drag correlation -/

theorem find_cd_of_nonpos {re_p : ℝ} (h : re_p ≤ 0) :
    find_cd_from_rep re_p = ⊤ := by
  simp [find_cd_from_rep, h]

theorem find_cd_of_pos {re_p : ℝ} (h : 0 < re_p) :
    find_cd_from_rep re_p = ((cd_curve re_p : ℝ) : EReal) := by
  simp [find_cd_from_rep, not_le.mpr h]

theorem cd_curve_pos {re_p : ℝ} (h : 0 < re_p) : 0 < cd_curve re_p := by
  have h1 : 0 < re_p ^ (0.687 : ℝ) := Real.rpow_pos_of_pos h _
  have h2 : 0 < re_p ^ (1.16 : ℝ) := Real.rpow_pos_of_pos h _
  have h3 : (0 : ℝ) < 42500 / re_p ^ (1.16 : ℝ) := by positivity
  have hA : 0 < (24 / re_p) * (1 + 0.15 * re_p ^ (0.687 : ℝ)) := by
    apply mul_pos (by positivity)
    nlinarith
  have hB : 0 < 0.42 / (1 + 42500 / re_p ^ (1.16 : ℝ)) := by
    apply div_pos (by norm_num)
    linarith
  unfold cd_curve
  linarith

theorem find_cd_pos (re_p : ℝ) : 0 < find_cd_from_rep re_p := by
  unfold find_cd_from_rep
  split
  · exact EReal.zero_lt_top
  · exact EReal.coe_pos.mpr (cd_curve_pos (not_le.mp (by assumption)))

/-! ### Facts about `absE` -/

theorem absE_coe (x : ℝ) : absE ((x : ℝ) : EReal) = ((|x| : ℝ) : EReal) := by
  unfold absE
  rw [← EReal.coe_neg]
  rcases le_total x (-x) with h | h
  · rw [max_eq_right (EReal.coe_le_coe_iff.mpr h), abs_of_nonpos (by linarith)]
  · rw [max_eq_left (EReal.coe_le_coe_iff.mpr h), abs_of_nonneg (by linarith)]

theorem absE_bot : absE ⊥ = ⊤ := by
  unfold absE
  rw [EReal.neg_bot]
  exact max_eq_right le_top

theorem absE_top : absE ⊤ = ⊤ := by
  unfold absE
  exact max_eq_left le_top

/-! ### Unfolding the fixed-point loop -/

theorem solveLoop_eq (d g rho_l rho_g mu_g tol : ℝ) (fuel i : ℕ)
    (cd_guess : EReal) :
    solveLoop d g rho_l rho_g mu_g tol fuel i cd_guess =
      if cd_guess ≤ 0 then .diverged
      else
        let u_t : ℝ :=
          Real.sqrt ((((4 * d * g * rho_l : ℝ) : EReal) /
            (((3 : ℝ) : EReal) * cd_guess * ((rho_g : ℝ) : EReal))).toReal)
        let re_p_new : ℝ := d * u_t * rho_g / mu_g
        let cd_new : EReal := find_cd_from_rep re_p_new
        if absE (cd_new - cd_guess) < ((tol : ℝ) : EReal) then
          .converged (i + 1) re_p_new cd_new
        else
          match fuel with
          | 0 => .exhausted re_p_new cd_new
          | n + 1 => solveLoop d g rho_l rho_g mu_g tol n (i + 1) cd_new := by
  rw [solveLoop]

theorem toReal_coe_div_coe (x y : ℝ) :
    (((x : ℝ) : EReal) / ((y : ℝ) : EReal)).toReal = x / y := by
  rw [div_eq_mul_inv, ← EReal.coe_inv, ← EReal.coe_mul, EReal.toReal_coe,
    ← div_eq_mul_inv]

theorem solveLoop_coe_step (d g rho_l rho_g mu_g tol : ℝ) (fuel i : ℕ)
    {cd : ℝ} (hcd : 0 < cd) :
    solveLoop d g rho_l rho_g mu_g tol fuel i ((cd : ℝ) : EReal) =
      (let u_t : ℝ := Real.sqrt ((4 * d * g * rho_l) / (3 * cd * rho_g))
       let re_p_new : ℝ := d * u_t * rho_g / mu_g
       let cd_new : EReal := find_cd_from_rep re_p_new
       if absE (cd_new - ((cd : ℝ) : EReal)) < ((tol : ℝ) : EReal) then
         .converged (i + 1) re_p_new cd_new
       else
         match fuel with
         | 0 => SolveResult.exhausted re_p_new cd_new
         | n + 1 => solveLoop d g rho_l rho_g mu_g tol n (i + 1) cd_new) := by
  rw [solveLoop_eq,
    if_neg (fun hle => absurd (EReal.coe_nonpos.mp hle) (not_le.mpr hcd))]
  have harg : (((3 : ℝ) : EReal) * ((cd : ℝ) : EReal) * ((rho_g : ℝ) : EReal))
      = (((3 * cd * rho_g : ℝ)) : EReal) := by
    rw [← EReal.coe_mul, ← EReal.coe_mul]
  rw [harg, toReal_coe_div_coe]

theorem solveLoop_ne_diverged (d g rho_l rho_g mu_g tol : ℝ) :
    ∀ (fuel i : ℕ) (cd : EReal), 0 < cd →
      solveLoop d g rho_l rho_g mu_g tol fuel i cd ≠ .diverged := by
  intro fuel
  induction fuel with
  | zero =>
    intro i cd hcd
    rw [solveLoop_eq, if_neg (not_le.mpr hcd)]
    dsimp only
    split
    · intro h; cases h
    · intro h; cases h
  | succ n ih =>
    intro i cd hcd
    rw [solveLoop_eq, if_neg (not_le.mpr hcd)]
    dsimp only
    split
    · intro h; cases h
    · exact ih (i + 1) _ (find_cd_pos _)

theorem solveLoop_converged_bound (d g rho_l rho_g mu_g tol : ℝ) :
    ∀ (fuel i k : ℕ) (cd : EReal) (re : ℝ) (cd' : EReal),
      solveLoop d g rho_l rho_g mu_g tol fuel i cd = .converged k re cd' →
      k ≤ fuel + i + 1 := by
  intro fuel
  induction fuel with
  | zero =>
    intro i k cd re cd' h
    rw [solveLoop_eq] at h
    by_cases h0 : cd ≤ 0
    · rw [if_pos h0] at h; cases h
    · rw [if_neg h0] at h
      dsimp only at h
      split at h
      · cases h; omega
      · cases h
  | succ n ih =>
    intro i k cd re cd' h
    rw [solveLoop_eq] at h
    by_cases h0 : cd ≤ 0
    · rw [if_pos h0] at h; cases h
    · rw [if_neg h0] at h
      dsimp only at h
      split at h
      · cases h; omega
      · have := ih (i + 1) k _ re cd' h
        omega

theorem top_denominator_toReal_zero (x rho_g : ℝ) :
    (((x : ℝ) : EReal) /
      (((3 : ℝ) : EReal) * (⊤ : EReal) * ((rho_g : ℝ) : EReal))).toReal = 0 := by
  rw [EReal.coe_mul_top_of_pos (by norm_num : (0 : ℝ) < 3)]
  rcases lt_trichotomy rho_g 0 with h | h | h
  · rw [EReal.top_mul_of_neg (EReal.coe_neg'.mpr h), div_eq_mul_inv,
      EReal.inv_bot, mul_zero, EReal.toReal_zero]
  · rw [h, EReal.coe_zero, mul_zero, div_eq_mul_inv, EReal.inv_zero, mul_zero,
      EReal.toReal_zero]
  · rw [EReal.top_mul_of_pos (EReal.coe_pos.mpr h), div_eq_mul_inv,
      EReal.inv_top, mul_zero, EReal.toReal_zero]

theorem solveLoop_top (d g rho_l rho_g mu_g tol : ℝ) :
    ∀ (fuel i : ℕ),
      solveLoop d g rho_l rho_g mu_g tol fuel i ⊤ = .exhausted 0 ⊤ := by
  have hstep : ∀ (fuel i : ℕ),
      solveLoop d g rho_l rho_g mu_g tol fuel i ⊤ =
        match fuel with
        | 0 => SolveResult.exhausted 0 ⊤
        | n + 1 => solveLoop d g rho_l rho_g mu_g tol n (i + 1) ⊤ := by
    intro fuel i
    rw [solveLoop_eq, if_neg (by simp)]
    dsimp only
    rw [top_denominator_toReal_zero, Real.sqrt_zero]
    have hre : d * 0 * rho_g / mu_g = 0 := by ring
    rw [hre, find_cd_of_nonpos le_rfl, if_neg]
    rw [EReal.sub_top, absE_bot]
    exact not_top_lt
  intro fuel
  induction fuel with
  | zero => intro i; rw [hstep]
  | succ n ih => intro i; rw [hstep]; exact ih (i + 1)

theorem onset_and_final_ne_cdDiverged (p : FlowParameters) (w : Bool)
    (d re_p : ℝ) (cd : EReal) (m : ℝ) :
    onset_and_final p w d re_p cd m ≠ .cdDiverged := by
  unfold onset_and_final
  dsimp only
  split
  · intro h; cases h
  · split
    · intro h; cases h
    · split
      · intro h; cases h
      · split
        · intro h; cases h
        · split
          · intro h; cases h
          · split
            · intro h; cases h
            · intro h; cases h

/-- Characterisation of the onset-correction and final stages on the success
path: with every guard passing, the stage returns `success` with the
stated `omega`, `Re_LFC`, `gamma_c`, `E_M` and `E`. -/
theorem onset_and_final_success (p : FlowParameters) (w : Bool)
    (d re_p : ℝ) (cd : EReal) (m : ℝ)
    (h1 : ¬(p.mu_g = 0 ∨ p.rho_l = 0))
    (h2 : ¬((p.mu_l / p.mu_g) * Real.sqrt (p.rho_g / p.rho_l) ≤ 0))
    (h3 : ¬(p.w_l = 0))
    (h4 : ¬((2 : ℝ) - m = 0))
    (h5 : ¬(d ^ ((1 : ℝ) + m) * p.g * (p.rho_l - p.rho_g) ≤ 0))
    (h6 : ¬((1 : ℝ) + p.a2 *
        (Real.sqrt (p.d_capital * p.ug ^ 3 * p.rho_l * p.rho_g) / p.sigma) *
        ((p.rho_g ^ ((1 : ℝ) - m) * p.mu_g ^ m /
          (d ^ ((1 : ℝ) + m) * p.g * (p.rho_l - p.rho_g))) ^ (1 / (2 - m)))
        = 0)) :
    onset_and_final p w d re_p cd m =
      (let omega := (p.mu_l / p.mu_g) * Real.sqrt (p.rho_g / p.rho_l)
       let relfc := 7.3 * (Real.logb 10 omega) ^ 3
         + 44.2 * (Real.logb 10 omega) ^ 2 - 263 * (Real.logb 10 omega) + 439
       let gamma_c := relfc * p.mu_l / 4
       let em := 1 - (Real.pi * p.d_capital * gamma_c / p.w_l)
       let term1 := Real.sqrt (p.d_capital * p.ug ^ 3 * p.rho_l * p.rho_g)
         / p.sigma
       let term2 := (p.rho_g ^ ((1 : ℝ) - m) * p.mu_g ^ m /
         (d ^ ((1 : ℝ) + m) * p.g * (p.rho_l - p.rho_g))) ^ (1 / (2 - m))
       let rhs := p.a2 * term1 * term2
       .success w d re_p cd m omega relfc gamma_c em
         (em * (rhs / (1 + rhs)))) := by
  unfold onset_and_final
  dsimp only
  rw [if_neg h1, if_neg h2, if_neg h3, if_neg h4, if_neg h5, if_neg h6]

/-! ### Claims -/

/-- C3: `find_cd_from_rep` returns the positive-infinity sentinel for every
`re_p ≤ 0` (without raising), and for every `re_p > 0` returns exactly
`(24/re_p)*(1 + 0.15*re_p^0.687) + 0.42/(1 + (42500/re_p^1.16))`; being a
function of `re_p` alone it is pure and deterministic. -/
theorem claim_C3_drag_sentinel_and_formula :
    (∀ re_p : ℝ, re_p ≤ 0 → find_cd_from_rep re_p = ⊤) ∧
    (∀ re_p : ℝ, 0 < re_p → find_cd_from_rep re_p =
      (((24 / re_p) * (1 + 0.15 * re_p ^ (0.687 : ℝ))
        + 0.42 / (1 + 42500 / re_p ^ (1.16 : ℝ)) : ℝ) : EReal)) := by
  exact ⟨fun _ h => find_cd_of_nonpos h, fun _ h => find_cd_of_pos h⟩

/-- Witness for C3 at `re_p = -1` and `re_p = 2`. -/
theorem claim_C3_witness :
    (((-1 : ℝ) ≤ 0) ∧ find_cd_from_rep (-1) = ⊤) ∧
    (((0 : ℝ) < 2) ∧ find_cd_from_rep 2 =
      (((24 / 2) * (1 + 0.15 * (2 : ℝ) ^ (0.687 : ℝ))
        + 0.42 / (1 + 42500 / (2 : ℝ) ^ (1.16 : ℝ)) : ℝ) : EReal)) :=
  ⟨⟨by norm_num, claim_C3_drag_sentinel_and_formula.1 (-1) (by norm_num)⟩,
   ⟨by norm_num, claim_C3_drag_sentinel_and_formula.2 2 (by norm_num)⟩⟩

/-- C5: the regime exponent is a pure function of the converged Reynolds
number (the pipeline applies `regime_m` to the Reynolds number the loop
produced), with `m = 1` for `Re_p < 1.92`, `m = 0.6` for `1.92 ≤ Re_p < 500`,
`m = 0` for `Re_p ≥ 500`; in particular `Re_p = 1.92 ↦ 0.6` and
`Re_p = 500 ↦ 0`. -/
theorem claim_C5_regime_exponent :
    (∀ p w d re_p cd, downstream p w d re_p cd =
      onset_and_final p w d re_p cd (regime_m re_p)) ∧
    (∀ re_p : ℝ, re_p < 1.92 → regime_m re_p = 1) ∧
    (∀ re_p : ℝ, 1.92 ≤ re_p → re_p < 500 → regime_m re_p = 0.6) ∧
    (∀ re_p : ℝ, 500 ≤ re_p → regime_m re_p = 0) ∧
    regime_m 1.92 = 0.6 ∧ regime_m 500 = 0 := by
  refine ⟨fun _ _ _ _ _ => rfl, fun re h => if_pos h, fun re h1 h2 => ?_,
    fun re h => ?_, by norm_num [regime_m], by norm_num [regime_m]⟩
  · rw [regime_m, if_neg (not_lt.mpr h1), if_pos h2]
  · rw [regime_m, if_neg (not_lt.mpr (by linarith)),
      if_neg (not_lt.mpr (by linarith))]

/-- Witness for C5 at the boundary probes 1.919999, 1.92, 499.999, 500. -/
theorem claim_C5_witness :
    ((1.919999 : ℝ) < 1.92 ∧ regime_m 1.919999 = 1) ∧
    ((1.92 : ℝ) ≤ 1.92 ∧ (1.92 : ℝ) < 500 ∧ regime_m 1.92 = 0.6) ∧
    ((1.92 : ℝ) ≤ 499.999 ∧ (499.999 : ℝ) < 500 ∧ regime_m 499.999 = 0.6) ∧
    ((500 : ℝ) ≤ 500 ∧ regime_m 500 = 0) :=
  ⟨⟨by norm_num, claim_C5_regime_exponent.2.1 _ (by norm_num)⟩,
   ⟨by norm_num, by norm_num,
     claim_C5_regime_exponent.2.2.1 _ (by norm_num) (by norm_num)⟩,
   ⟨by norm_num, by norm_num,
     claim_C5_regime_exponent.2.2.1 _ (by norm_num) (by norm_num)⟩,
   ⟨by norm_num, claim_C5_regime_exponent.2.2.2.1 _ (by norm_num)⟩⟩

/-- C1: the pipeline's fixed-point solve starts from `cd_guess = 0.4` with
tolerance `1e-6` (third conjunct, definitional); every iteration whose guess
is a positive real computes `u_t = sqrt((4·d·g·ρ_L)/(3·cd_guess·ρ_G))` —
`ρ_L` alone in the numerator — then `Re_new = d·u_t·ρ_G/μ_G`, then
`Cd_new = find_cd_from_rep Re_new`, accepts `(Re_new, Cd_new)` and stops
exactly when `|Cd_new − cd_guess| < tol`, and otherwise continues with
`cd_guess = Cd_new` (first conjunct); on finite drag values the acceptance
test is exactly the real-number comparison `|Cd_new − cd_guess| < tol`
(second conjunct). -/
theorem claim_C1_iteration_step :
    (∀ (d g rho_l rho_g mu_g tol : ℝ) (fuel i : ℕ) (cd : ℝ), 0 < cd →
      solveLoop d g rho_l rho_g mu_g tol fuel i ((cd : ℝ) : EReal) =
        (let u_t : ℝ := Real.sqrt ((4 * d * g * rho_l) / (3 * cd * rho_g))
         let re_p_new : ℝ := d * u_t * rho_g / mu_g
         let cd_new : EReal := find_cd_from_rep re_p_new
         if absE (cd_new - ((cd : ℝ) : EReal)) < ((tol : ℝ) : EReal) then
           .converged (i + 1) re_p_new cd_new
         else
           match fuel with
           | 0 => SolveResult.exhausted re_p_new cd_new
           | n + 1 => solveLoop d g rho_l rho_g mu_g tol n (i + 1) cd_new)) ∧
    (∀ x cd tol : ℝ,
      (absE (((x : ℝ) : EReal) - ((cd : ℝ) : EReal)) < ((tol : ℝ) : EReal)
        ↔ |x - cd| < tol)) ∧
    (∀ (p : FlowParameters) (d : ℝ),
      after_diameter p d =
        match solveLoop d p.g p.rho_l p.rho_g p.mu_g 0.000001 499 0
            (((0.4 : ℝ)) : EReal) with
        | .diverged => .cdDiverged
        | .converged _ re_p cd => downstream p false d re_p cd
        | .exhausted re_p cd => downstream p true d re_p cd) := by
  refine ⟨fun d g rl rg mg tol fuel i cd hcd =>
      solveLoop_coe_step d g rl rg mg tol fuel i hcd,
    fun x cd tol => ?_, fun p d => rfl⟩
  rw [← EReal.coe_sub, absE_coe, EReal.coe_lt_coe_iff]

/-- Witness for C1: one step from the seed `0.4` with unit parameters and
tolerance `1`, and the acceptance test at `x = 3`, `cd = 1`, `tol = 5`. -/
theorem claim_C1_witness :
    ((0 : ℝ) < 0.4 ∧
      solveLoop 1 1 1 1 1 1 0 0 ((0.4 : ℝ) : EReal) =
        (let u_t : ℝ := Real.sqrt ((4 * 1 * 1 * 1) / (3 * 0.4 * 1))
         let re_p_new : ℝ := 1 * u_t * 1 / 1
         let cd_new : EReal := find_cd_from_rep re_p_new
         if absE (cd_new - ((0.4 : ℝ) : EReal)) < (((1 : ℝ)) : EReal) then
           .converged 1 re_p_new cd_new
         else SolveResult.exhausted re_p_new cd_new)) ∧
    (absE (((3 : ℝ) : EReal) - ((1 : ℝ) : EReal)) < (((5 : ℝ)) : EReal)
      ↔ |(3 : ℝ) - 1| < 5) :=
  ⟨⟨by norm_num, claim_C1_iteration_step.1 1 1 1 1 1 1 0 0 0.4 (by norm_num)⟩,
   claim_C1_iteration_step.2.1 3 1 5⟩

theorem solveLoop_probe_converges :
    solveLoop 1 1 1 1 1 100 0 0 (((4 / 3 : ℝ)) : EReal) =
      .converged 1 1 ((cd_curve 1 : ℝ) : EReal) := by
  rw [solveLoop_coe_step 1 1 1 1 1 100 0 0 (by norm_num : (0 : ℝ) < 4 / 3)]
  dsimp only
  rw [show (4 * 1 * 1 * 1 : ℝ) / (3 * (4 / 3) * 1) = 1 by norm_num,
    Real.sqrt_one, show (1 : ℝ) * 1 * 1 / 1 = 1 by norm_num,
    find_cd_of_pos (by norm_num : (0 : ℝ) < 1)]
  have hcond : absE (((cd_curve 1 : ℝ) : EReal) - ((4 / 3 : ℝ) : EReal))
      < (((100 : ℝ)) : EReal) := by
    rw [← EReal.coe_sub, absE_coe, EReal.coe_lt_coe_iff, abs_lt]
    have h1 : cd_curve 1 = 24 * (1 + 0.15) + 0.42 / (1 + 42500) := by
      unfold cd_curve
      rw [Real.one_rpow, Real.one_rpow]
      norm_num
    rw [h1]
    constructor <;> norm_num
  rw [if_pos hcond]

/-- With positive `d`, `g`, `ρ_L`, `ρ_G` but negative `μ_G`, the first
Reynolds candidate is negative, the guess becomes the infinity sentinel and
the loop exhausts its whole budget there, ending at the pair `(0, ⊤)`. -/
theorem solveLoop_neg_mu_exhausts (d g rho_l rho_g mu_g tol : ℝ)
    (hd : 0 < d) (hg : 0 < g) (hrl : 0 < rho_l) (hrg : 0 < rho_g)
    (hmg : mu_g < 0) (n i : ℕ) (cd : ℝ) (hcd : 0 < cd) :
    solveLoop d g rho_l rho_g mu_g tol (n + 1) i ((cd : ℝ) : EReal) =
      .exhausted 0 ⊤ := by
  rw [solveLoop_coe_step _ _ _ _ _ _ _ _ hcd]
  dsimp only
  have hre : d * Real.sqrt ((4 * d * g * rho_l) / (3 * cd * rho_g)) * rho_g
      / mu_g < 0 := by
    apply div_neg_of_pos_of_neg _ hmg
    have hut : 0 < Real.sqrt ((4 * d * g * rho_l) / (3 * cd * rho_g)) :=
      Real.sqrt_pos.mpr (by positivity)
    positivity
  rw [find_cd_of_nonpos hre.le, EReal.top_sub_coe, absE_top,
    if_neg not_top_lt]
  exact solveLoop_top d g rho_l rho_g mu_g tol n (i + 1)

theorem cex_loop_exhausted :
    solveLoop (Real.sqrt ((cexParams.d_capital * cexParams.sigma * 0.0091)
        / (cexParams.rho_g * cexParams.ug ^ 2)))
      cexParams.g cexParams.rho_l cexParams.rho_g cexParams.mu_g 0.000001
      499 0 ((0.4 : ℝ) : EReal) = .exhausted 0 ⊤ := by
  have hd : 0 < Real.sqrt ((cexParams.d_capital * cexParams.sigma * 0.0091)
      / (cexParams.rho_g * cexParams.ug ^ 2)) := by
    apply Real.sqrt_pos.mpr
    simp only [cexParams]
    norm_num
  exact solveLoop_neg_mu_exhausts _ _ _ _ _ _ hd
    (by simp only [cexParams]; norm_num)
    (by simp only [cexParams]; norm_num)
    (by simp only [cexParams]; norm_num)
    (by simp only [cexParams]; norm_num) 498 0 0.4 (by norm_num)

/-- C2: a run of the loop that converges with iteration count `k` satisfies
`k ≤ fuel + i + 1` — for the pipeline's call (`fuel = 499`, `i = 0`,
mirroring `range(500)`) at most 500 iterations; and when the pipeline's loop
instead exhausts its budget the run does not fail: it carries the distinct
non-convergence flag (`true`) and executes the downstream stages on the last
computed pair `(re_p, cd)`. -/
theorem claim_C2_iteration_budget :
    (∀ (d g rho_l rho_g mu_g tol : ℝ) (fuel i k : ℕ) (cd : EReal)
        (re : ℝ) (cd' : EReal),
      solveLoop d g rho_l rho_g mu_g tol fuel i cd = .converged k re cd' →
      k ≤ fuel + i + 1) ∧
    (∀ (p : FlowParameters) (re : ℝ) (cd : EReal),
      ¬(p.sigma ≤ 0 ∨ p.rho_g ≤ 0 ∨ p.ug ≤ 0) →
      solveLoop (Real.sqrt ((p.d_capital * p.sigma * 0.0091)
          / (p.rho_g * p.ug ^ 2)))
        p.g p.rho_l p.rho_g p.mu_g 0.000001 499 0 ((0.4 : ℝ) : EReal) =
        .exhausted re cd →
      run_all_calculations p =
        downstream p true
          (Real.sqrt ((p.d_capital * p.sigma * 0.0091)
            / (p.rho_g * p.ug ^ 2))) re cd) := by
  constructor
  · exact fun d g rl rg mg tol fuel i k cd re cd' h =>
      solveLoop_converged_bound d g rl rg mg tol fuel i k cd re cd' h
  · intro p re cd hv hsolve
    unfold run_all_calculations
    rw [if_neg hv]
    unfold after_diameter
    rw [hsolve]

/-- Witness for C2: a loop call that provably converges with `k = 1 ≤ 1`,
and the concrete parameter set `cexParams`, on which the pipeline's loop
provably exhausts its 500-iteration budget and the run proceeds downstream
with the warning flag set. -/
theorem claim_C2_witness :
    (1 : ℕ) ≤ 0 + 0 + 1 ∧
    run_all_calculations cexParams =
      downstream cexParams true
        (Real.sqrt ((cexParams.d_capital * cexParams.sigma * 0.0091)
          / (cexParams.rho_g * cexParams.ug ^ 2))) 0 ⊤ :=
  ⟨claim_C2_iteration_budget.1 1 1 1 1 1 100 0 0 1 (((4 / 3 : ℝ)) : EReal)
      1 ((cd_curve 1 : ℝ) : EReal) solveLoop_probe_converges,
   claim_C2_iteration_budget.2 cexParams 0 ⊤
     (by simp only [cexParams]; norm_num) cex_loop_exhausted⟩

/-- C6: with `σ > 0`, `ρ_G > 0` and `U_G > 0` the pipeline proceeds with the
droplet diameter `d = sqrt((D * σ * 0.0091) / (ρ_G * U_G²))`; when `σ ≤ 0`,
`ρ_G ≤ 0` or `U_G ≤ 0` (in particular `ρ_G = 0`) the run is a validation
error outright — the diameter, the fixed-point iteration and every later
stage are bypassed, whatever they would have computed. -/
theorem claim_C6_droplet_diameter :
    (∀ p : FlowParameters, p.sigma ≤ 0 ∨ p.rho_g ≤ 0 ∨ p.ug ≤ 0 →
      run_all_calculations p = .validationError) ∧
    (∀ p : FlowParameters, 0 < p.sigma → 0 < p.rho_g → 0 < p.ug →
      run_all_calculations p = after_diameter p
        (Real.sqrt ((p.d_capital * p.sigma * 0.0091)
          / (p.rho_g * p.ug ^ 2)))) := by
  constructor
  · intro p h
    unfold run_all_calculations
    rw [if_pos h]
  · intro p hs hr hu
    unfold run_all_calculations
    rw [if_neg (by push_neg; exact ⟨hs, hr, hu⟩)]

/-- Witness for C6: the reference defaults pass validation and proceed with
the Eq.-25 diameter; setting `ρ_G = 0` in them yields a validation error. -/
theorem claim_C6_witness :
    (run_all_calculations defaultParams = after_diameter defaultParams
      (Real.sqrt ((defaultParams.d_capital * defaultParams.sigma * 0.0091)
        / (defaultParams.rho_g * defaultParams.ug ^ 2)))) ∧
    run_all_calculations { defaultParams with rho_g := 0 } =
      .validationError :=
  ⟨claim_C6_droplet_diameter.2 defaultParams (by norm_num [defaultParams])
      (by norm_num [defaultParams]) (by norm_num [defaultParams]),
   claim_C6_droplet_diameter.1 _ (by norm_num [defaultParams])⟩

/-- C4: the final stage computes `term1 = sqrt(D·U_G³·ρ_L·ρ_G)/σ`,
`term2 = ((ρ_G^(1-m)·μ_G^m)/(d^(1+m)·g·(ρ_L-ρ_G)))^(1/(2-m))`,
`rhs = A2·term1·term2` and `E = E_M·(rhs/(1+rhs))`; and, once the onset
stage has passed, it fails rather than returning `E` when `m = 2`, when the
`term2` denominator is `≤ 0`, or when `1 + rhs = 0`. -/
theorem claim_C4_final_stage :
    (∀ (p : FlowParameters) (w : Bool) (d re_p : ℝ) (cd : EReal) (m : ℝ),
      ¬(p.mu_g = 0 ∨ p.rho_l = 0) →
      ¬((p.mu_l / p.mu_g) * Real.sqrt (p.rho_g / p.rho_l) ≤ 0) →
      p.w_l ≠ 0 → (2 : ℝ) - m ≠ 0 →
      ¬(d ^ ((1 : ℝ) + m) * p.g * (p.rho_l - p.rho_g) ≤ 0) →
      (1 : ℝ) + p.a2 *
          (Real.sqrt (p.d_capital * p.ug ^ 3 * p.rho_l * p.rho_g) / p.sigma) *
          ((p.rho_g ^ ((1 : ℝ) - m) * p.mu_g ^ m /
            (d ^ ((1 : ℝ) + m) * p.g * (p.rho_l - p.rho_g))) ^ (1 / (2 - m)))
          ≠ 0 →
      onset_and_final p w d re_p cd m =
        (let omega := (p.mu_l / p.mu_g) * Real.sqrt (p.rho_g / p.rho_l)
         let relfc := 7.3 * (Real.logb 10 omega) ^ 3
           + 44.2 * (Real.logb 10 omega) ^ 2 - 263 * (Real.logb 10 omega)
           + 439
         let gamma_c := relfc * p.mu_l / 4
         let em := 1 - (Real.pi * p.d_capital * gamma_c / p.w_l)
         let term1 := Real.sqrt (p.d_capital * p.ug ^ 3 * p.rho_l * p.rho_g)
           / p.sigma
         let term2 := (p.rho_g ^ ((1 : ℝ) - m) * p.mu_g ^ m /
           (d ^ ((1 : ℝ) + m) * p.g * (p.rho_l - p.rho_g))) ^ (1 / (2 - m))
         let rhs := p.a2 * term1 * term2
         .success w d re_p cd m omega relfc gamma_c em
           (em * (rhs / (1 + rhs))))) ∧
    (∀ (p : FlowParameters) (w : Bool) (d re_p : ℝ) (cd : EReal) (m : ℝ),
      ¬(p.mu_g = 0 ∨ p.rho_l = 0) →
      ¬((p.mu_l / p.mu_g) * Real.sqrt (p.rho_g / p.rho_l) ≤ 0) →
      p.w_l ≠ 0 → m = 2 →
      onset_and_final p w d re_p cd m = .mEqualsTwo) ∧
    (∀ (p : FlowParameters) (w : Bool) (d re_p : ℝ) (cd : EReal) (m : ℝ),
      ¬(p.mu_g = 0 ∨ p.rho_l = 0) →
      ¬((p.mu_l / p.mu_g) * Real.sqrt (p.rho_g / p.rho_l) ≤ 0) →
      p.w_l ≠ 0 → (2 : ℝ) - m ≠ 0 →
      d ^ ((1 : ℝ) + m) * p.g * (p.rho_l - p.rho_g) ≤ 0 →
      onset_and_final p w d re_p cd m = .validationError) ∧
    (∀ (p : FlowParameters) (w : Bool) (d re_p : ℝ) (cd : EReal) (m : ℝ),
      ¬(p.mu_g = 0 ∨ p.rho_l = 0) →
      ¬((p.mu_l / p.mu_g) * Real.sqrt (p.rho_g / p.rho_l) ≤ 0) →
      p.w_l ≠ 0 → (2 : ℝ) - m ≠ 0 →
      ¬(d ^ ((1 : ℝ) + m) * p.g * (p.rho_l - p.rho_g) ≤ 0) →
      (1 : ℝ) + p.a2 *
          (Real.sqrt (p.d_capital * p.ug ^ 3 * p.rho_l * p.rho_g) / p.sigma) *
          ((p.rho_g ^ ((1 : ℝ) - m) * p.mu_g ^ m /
            (d ^ ((1 : ℝ) + m) * p.g * (p.rho_l - p.rho_g))) ^ (1 / (2 - m)))
          = 0 →
      onset_and_final p w d re_p cd m = .validationError) := by
  refine ⟨fun p w d re cd m h1 h2 h3 h4 h5 h6 =>
      onset_and_final_success p w d re cd m h1 h2 h3 h4 h5 h6,
    fun p w d re cd m h1 h2 h3 hm => ?_,
    fun p w d re cd m h1 h2 h3 h4 h5 => ?_,
    fun p w d re cd m h1 h2 h3 h4 h5 h6 => ?_⟩
  · unfold onset_and_final
    dsimp only
    rw [if_neg h1, if_neg h2, if_neg h3, if_pos (by rw [hm]; norm_num)]
  · unfold onset_and_final
    dsimp only
    rw [if_neg h1, if_neg h2, if_neg h3, if_neg h4, if_pos h5]
  · unfold onset_and_final
    dsimp only
    rw [if_neg h1, if_neg h2, if_neg h3, if_neg h4, if_neg h5, if_pos h6]

/-- Witness for C4 on concrete inputs: the success path at
`onsetProbeParams` with `m = 0`, the `m = 2` abort, a non-positive `term2`
denominator (`ρ_L = ρ_G = 1`), and `1 + rhs = 0` (`A2 = -99/10`, `m = 1`). -/
theorem claim_C4_witness :
    (onset_and_final onsetProbeParams false 1 1000 0 0 =
      (let omega := (onsetProbeParams.mu_l / onsetProbeParams.mu_g) *
         Real.sqrt (onsetProbeParams.rho_g / onsetProbeParams.rho_l)
       let relfc := 7.3 * (Real.logb 10 omega) ^ 3
         + 44.2 * (Real.logb 10 omega) ^ 2 - 263 * (Real.logb 10 omega) + 439
       let gamma_c := relfc * onsetProbeParams.mu_l / 4
       let em := 1 - (Real.pi * onsetProbeParams.d_capital * gamma_c /
         onsetProbeParams.w_l)
       let term1 := Real.sqrt (onsetProbeParams.d_capital *
         onsetProbeParams.ug ^ 3 * onsetProbeParams.rho_l *
         onsetProbeParams.rho_g) / onsetProbeParams.sigma
       let term2 := (onsetProbeParams.rho_g ^ ((1 : ℝ) - 0) *
         onsetProbeParams.mu_g ^ (0 : ℝ) /
         ((1 : ℝ) ^ ((1 : ℝ) + 0) * onsetProbeParams.g *
           (onsetProbeParams.rho_l - onsetProbeParams.rho_g))) ^
         (1 / (2 - (0 : ℝ)))
       let rhs := onsetProbeParams.a2 * term1 * term2
       .success false 1 1000 0 0 omega relfc gamma_c em
         (em * (rhs / (1 + rhs))))) ∧
    (onset_and_final onsetProbeParams false 1 1000 0 2 = .mEqualsTwo) ∧
    (onset_and_final { onsetProbeParams with rho_l := 1 } false 1 1000 0 0 =
      .validationError) ∧
    (onset_and_final { onsetProbeParams with a2 := -99/10 } false 1 1000 0 1 =
      .validationError) := by
  refine ⟨claim_C4_final_stage.1 onsetProbeParams false 1 1000 0 0
      (by norm_num [onsetProbeParams])
      (by simp only [onsetProbeParams]; rw [not_le]; positivity)
      (by norm_num [onsetProbeParams]) (by norm_num)
      (by simp only [onsetProbeParams]; rw [Real.one_rpow]; norm_num)
      (by simp only [onsetProbeParams]; norm_num),
    claim_C4_final_stage.2.1 onsetProbeParams false 1 1000 0 2
      (by norm_num [onsetProbeParams])
      (by simp only [onsetProbeParams]; rw [not_le]; positivity)
      (by norm_num [onsetProbeParams]) rfl,
    claim_C4_final_stage.2.2.1 _ false 1 1000 0 0
      (by norm_num [onsetProbeParams])
      (by simp only [onsetProbeParams]
          rw [not_le, div_self (by norm_num : (1:ℝ) ≠ 0), Real.sqrt_one]
          norm_num)
      (by norm_num [onsetProbeParams]) (by norm_num)
      (by simp only [onsetProbeParams]; rw [Real.one_rpow]; norm_num),
    claim_C4_final_stage.2.2.2 _ false 1 1000 0 1
      (by norm_num [onsetProbeParams])
      (by simp only [onsetProbeParams]; rw [not_le]; positivity)
      (by norm_num [onsetProbeParams]) (by norm_num)
      (by simp only [onsetProbeParams]; rw [Real.one_rpow]; norm_num)
      (by simp only [onsetProbeParams]
          rw [Real.one_rpow, Real.rpow_one, Real.one_rpow]
          rw [show (1:ℝ) * 1 ^ 3 * 100 * 1 = 10 ^ 2 by norm_num,
            Real.sqrt_sq (by norm_num : (0:ℝ) ≤ 10)]
          norm_num)⟩

/-- C7: the onset-correction stage computes
`omega = (μ_L/μ_G)·sqrt(ρ_G/ρ_L)`,
`Re_LFC = 7.3·log10(ω)³ + 44.2·log10(ω)² − 263·log10(ω) + 439`,
`gamma_c = Re_LFC·μ_L/4` and `E_M = 1 − π·D·gamma_c/W_L`; it is a
validation error whenever `omega ≤ 0` or `W_L = 0`, and the `W_L = 0` error
preempts the final stage: the outcome is `validationError` no matter what
`term1`/`term2` would have evaluated to. -/
theorem claim_C7_onset_correction :
    (∀ (p : FlowParameters) (w : Bool) (d re_p : ℝ) (cd : EReal) (m : ℝ),
      ¬(p.mu_g = 0 ∨ p.rho_l = 0) →
      ¬((p.mu_l / p.mu_g) * Real.sqrt (p.rho_g / p.rho_l) ≤ 0) →
      p.w_l ≠ 0 → (2 : ℝ) - m ≠ 0 →
      ¬(d ^ ((1 : ℝ) + m) * p.g * (p.rho_l - p.rho_g) ≤ 0) →
      (1 : ℝ) + p.a2 *
          (Real.sqrt (p.d_capital * p.ug ^ 3 * p.rho_l * p.rho_g) / p.sigma) *
          ((p.rho_g ^ ((1 : ℝ) - m) * p.mu_g ^ m /
            (d ^ ((1 : ℝ) + m) * p.g * (p.rho_l - p.rho_g))) ^ (1 / (2 - m)))
          ≠ 0 →
      onset_and_final p w d re_p cd m =
        (let omega := (p.mu_l / p.mu_g) * Real.sqrt (p.rho_g / p.rho_l)
         let relfc := 7.3 * (Real.logb 10 omega) ^ 3
           + 44.2 * (Real.logb 10 omega) ^ 2 - 263 * (Real.logb 10 omega)
           + 439
         let gamma_c := relfc * p.mu_l / 4
         let em := 1 - (Real.pi * p.d_capital * gamma_c / p.w_l)
         let term1 := Real.sqrt (p.d_capital * p.ug ^ 3 * p.rho_l * p.rho_g)
           / p.sigma
         let term2 := (p.rho_g ^ ((1 : ℝ) - m) * p.mu_g ^ m /
           (d ^ ((1 : ℝ) + m) * p.g * (p.rho_l - p.rho_g))) ^ (1 / (2 - m))
         let rhs := p.a2 * term1 * term2
         .success w d re_p cd m omega relfc gamma_c em
           (em * (rhs / (1 + rhs))))) ∧
    (∀ (p : FlowParameters) (w : Bool) (d re_p : ℝ) (cd : EReal) (m : ℝ),
      (p.mu_l / p.mu_g) * Real.sqrt (p.rho_g / p.rho_l) ≤ 0 →
      onset_and_final p w d re_p cd m = .validationError) ∧
    (∀ (p : FlowParameters) (w : Bool) (d re_p : ℝ) (cd : EReal) (m : ℝ),
      p.w_l = 0 →
      onset_and_final p w d re_p cd m = .validationError) := by
  refine ⟨fun p w d re cd m h1 h2 h3 h4 h5 h6 =>
      onset_and_final_success p w d re cd m h1 h2 h3 h4 h5 h6,
    fun p w d re cd m homega => ?_, fun p w d re cd m hw => ?_⟩
  · unfold onset_and_final
    dsimp only
    by_cases h1 : p.mu_g = 0 ∨ p.rho_l = 0
    · rw [if_pos h1]
    · rw [if_neg h1, if_pos homega]
  · unfold onset_and_final
    dsimp only
    by_cases h1 : p.mu_g = 0 ∨ p.rho_l = 0
    · rw [if_pos h1]
    · rw [if_neg h1]
      by_cases h2 : (p.mu_l / p.mu_g) * Real.sqrt (p.rho_g / p.rho_l) ≤ 0
      · rw [if_pos h2]
      · rw [if_neg h2, if_pos hw]

/-- Witness for C7 on concrete inputs: the success path at
`onsetProbeParams` with `d = 2`, an `omega ≤ 0` instance (`μ_L = -1`) and a
`W_L = 0` instance. -/
theorem claim_C7_witness :
    (onset_and_final onsetProbeParams true 2 3 0 0 =
      (let omega := (onsetProbeParams.mu_l / onsetProbeParams.mu_g) *
         Real.sqrt (onsetProbeParams.rho_g / onsetProbeParams.rho_l)
       let relfc := 7.3 * (Real.logb 10 omega) ^ 3
         + 44.2 * (Real.logb 10 omega) ^ 2 - 263 * (Real.logb 10 omega) + 439
       let gamma_c := relfc * onsetProbeParams.mu_l / 4
       let em := 1 - (Real.pi * onsetProbeParams.d_capital * gamma_c /
         onsetProbeParams.w_l)
       let term1 := Real.sqrt (onsetProbeParams.d_capital *
         onsetProbeParams.ug ^ 3 * onsetProbeParams.rho_l *
         onsetProbeParams.rho_g) / onsetProbeParams.sigma
       let term2 := (onsetProbeParams.rho_g ^ ((1 : ℝ) - 0) *
         onsetProbeParams.mu_g ^ (0 : ℝ) /
         ((2 : ℝ) ^ ((1 : ℝ) + 0) * onsetProbeParams.g *
           (onsetProbeParams.rho_l - onsetProbeParams.rho_g))) ^
         (1 / (2 - (0 : ℝ)))
       let rhs := onsetProbeParams.a2 * term1 * term2
       .success true 2 3 0 0 omega relfc gamma_c em
         (em * (rhs / (1 + rhs))))) ∧
    (onset_and_final { onsetProbeParams with mu_l := -1 } false 1 1 0 0 =
      .validationError) ∧
    (onset_and_final { onsetProbeParams with w_l := 0 } false 1 1 0 0 =
      .validationError) := by
  refine ⟨claim_C7_onset_correction.1 onsetProbeParams true 2 3 0 0
      (by norm_num [onsetProbeParams])
      (by simp only [onsetProbeParams]; rw [not_le]; positivity)
      (by norm_num [onsetProbeParams]) (by norm_num)
      (by simp only [onsetProbeParams]
          rw [show ((1:ℝ) + 0) = 1 by norm_num, Real.rpow_one]; norm_num)
      (by simp only [onsetProbeParams]; norm_num),
    claim_C7_onset_correction.2.1 _ false 1 1 0 0
      (by simp only [onsetProbeParams]
          have h := Real.sqrt_nonneg ((1 : ℝ) / 100)
          nlinarith),
    claim_C7_onset_correction.2.2 _ false 1 1 0 0
      (by simp [onsetProbeParams])⟩

theorem run_cex_eq_onset :
    run_all_calculations cexParams =
      onset_and_final cexParams true
        (Real.sqrt ((cexParams.d_capital * cexParams.sigma * 0.0091)
          / (cexParams.rho_g * cexParams.ug ^ 2))) 0 ⊤ (regime_m 0) := by
  unfold run_all_calculations
  rw [if_neg (by simp only [cexParams]; norm_num)]
  unfold after_diameter
  rw [cex_loop_exhausted]
  rfl

/-- On `cexParams` the pipeline reaches the final stage and returns an
entrainment fraction strictly greater than `1`, with no flag other than the
non-convergence warning. -/
theorem cex_run_is_success_gt_one :
    (run_all_calculations cexParams).isSuccess = true ∧
    1 < (run_all_calculations cexParams).eValue := by
  have hq : ((1 : ℝ) * 1 * 0.0091) / (4 * 1 ^ 2) = 0.0091 / 4 := by norm_num
  have hsq : Real.sqrt ((4 : ℝ) / 400) = 1 / 10 := by
    rw [show ((4 : ℝ) / 400) = (1 / 10) ^ 2 by norm_num,
      Real.sqrt_sq (by norm_num : (0 : ℝ) ≤ 1 / 10)]
  have hd2 : (Real.sqrt ((cexParams.d_capital * cexParams.sigma * 0.0091)
      / (cexParams.rho_g * cexParams.ug ^ 2))) ^ ((1 : ℝ) + 1) =
      0.0091 / 4 := by
    rw [show ((1 : ℝ) + 1) = (2 : ℝ) by norm_num, Real.rpow_two]
    simp only [cexParams]
    rw [hq, Real.sq_sqrt (by norm_num : (0 : ℝ) ≤ 0.0091 / 4)]
  have h1600 : Real.sqrt ((1 : ℝ) * 1 ^ 3 * 400 * 4) = 40 := by
    rw [show ((1 : ℝ) * 1 ^ 3 * 400 * 4) = 40 ^ 2 by norm_num,
      Real.sqrt_sq (by norm_num : (0 : ℝ) ≤ 40)]
  have hm : regime_m 0 = 1 := by norm_num [regime_m]
  have homega : (cexParams.mu_l / cexParams.mu_g) *
      Real.sqrt (cexParams.rho_g / cexParams.rho_l) = 1 := by
    simp only [cexParams]
    rw [hsq]
    norm_num
  have hsub : ((1 : ℝ) - 1) = 0 := by norm_num
  have hexp : (1 / (2 - (1 : ℝ))) = 1 := by norm_num
  rw [run_cex_eq_onset, hm,
    onset_and_final_success cexParams true _ 0 ⊤ 1
      (by simp only [cexParams]; norm_num)
      (by rw [homega]; norm_num)
      (by simp only [cexParams]; norm_num)
      (by norm_num)
      (by rw [not_le, hd2]; simp only [cexParams]; norm_num)
      (by
        rw [hd2]
        simp only [hsub, hexp, Real.rpow_zero, Real.rpow_one]
        simp only [cexParams]
        rw [h1600]
        norm_num)]
  dsimp only
  refine ⟨rfl, ?_⟩
  simp only [RunOutcome.eValue]
  rw [homega, Real.logb_one, hd2]
  simp only [hsub, hexp, Real.rpow_zero, Real.rpow_one]
  simp only [cexParams]
  rw [h1600]
  have hpi := Real.pi_gt_three
  nlinarith [hpi]

/-- C8, counterexample: on the concrete parameter set `cexParams` the
pipeline returns success, yet the returned entrainment fraction is greater
than `1` — a successful run whose `E` is outside `[0, 1]`, returned without
any range check firing. -/
theorem claim_C8_counterexample :
    (run_all_calculations cexParams).isSuccess = true ∧
    ¬((run_all_calculations cexParams).eValue ≤ 1) :=
  ⟨cex_run_is_success_gt_one.1, not_le.mpr cex_run_is_success_gt_one.2⟩

/-- C8, amended: the implementation performs no range assertion on the final
entrainment fraction: a successful run's `E` need not lie in `[0, 1]`, and
out-of-range results are returned as plain successes (there is a parameter
set on which the run succeeds with `E > 1`). -/
theorem claim_C8_no_range_assertion :
    ∃ p : FlowParameters, (run_all_calculations p).isSuccess = true ∧
      1 < (run_all_calculations p).eValue :=
  ⟨cexParams, cex_run_is_success_gt_one.1, cex_run_is_success_gt_one.2⟩

theorem rpow_ratio_le {b c : ℝ} {m n : ℕ} (hb : 0 < b) (hc : 0 ≤ c)
    (hn : n ≠ 0) (h : b ^ m ≤ c ^ n) : b ^ ((m : ℝ) / (n : ℝ)) ≤ c := by
  have hy : 0 ≤ b ^ ((m : ℝ) / (n : ℝ)) := Real.rpow_nonneg hb.le _
  have hmn : ((m : ℝ) / (n : ℝ)) * (n : ℝ) = (m : ℝ) :=
    div_mul_cancel₀ _ (Nat.cast_ne_zero.mpr hn)
  have hyn : (b ^ ((m : ℝ) / (n : ℝ))) ^ n = b ^ m := by
    rw [← Real.rpow_natCast (b ^ ((m : ℝ) / (n : ℝ))) n, ← Real.rpow_mul hb.le,
      hmn, Real.rpow_natCast]
  exact (pow_le_pow_iff_left₀ hy hc hn).mp (by rw [hyn]; exact h)

theorem le_rpow_ratio {b c : ℝ} {m n : ℕ} (hb : 0 < b) (hc : 0 ≤ c)
    (hn : n ≠ 0) (h : c ^ n ≤ b ^ m) : c ≤ b ^ ((m : ℝ) / (n : ℝ)) := by
  have hy : 0 ≤ b ^ ((m : ℝ) / (n : ℝ)) := Real.rpow_nonneg hb.le _
  have hmn : ((m : ℝ) / (n : ℝ)) * (n : ℝ) = (m : ℝ) :=
    div_mul_cancel₀ _ (Nat.cast_ne_zero.mpr hn)
  have hyn : (b ^ ((m : ℝ) / (n : ℝ))) ^ n = b ^ m := by
    rw [← Real.rpow_natCast (b ^ ((m : ℝ) / (n : ℝ))) n, ← Real.rpow_mul hb.le,
      hmn, Real.rpow_natCast]
  exact (pow_le_pow_iff_left₀ hc hy hn).mp (by rw [hyn]; exact h)

theorem cd_second_term_pos {x : ℝ} (hx : 0 < x) :
    0 < 0.42 / (1 + 42500 / x ^ (1.16 : ℝ)) := by
  have h2 : 0 < x ^ (1.16 : ℝ) := Real.rpow_pos_of_pos hx _
  have h3 : (0 : ℝ) < 42500 / x ^ (1.16 : ℝ) := by positivity
  exact div_pos (by norm_num) (by linarith)

theorem cd_second_term_lt {x : ℝ} (hx : 0 < x) :
    0.42 / (1 + 42500 / x ^ (1.16 : ℝ)) < 0.42 := by
  have h2 : 0 < x ^ (1.16 : ℝ) := Real.rpow_pos_of_pos hx _
  have h3 : (0 : ℝ) < 42500 / x ^ (1.16 : ℝ) := by positivity
  exact div_lt_self (by norm_num) (by linarith)

theorem cd_curve_01_gt : 240 < cd_curve 0.1 := by
  unfold cd_curve
  have hp : 0 < (0.1 : ℝ) ^ (0.687 : ℝ) :=
    Real.rpow_pos_of_pos (by norm_num) _
  have hB := cd_second_term_pos (show (0 : ℝ) < 0.1 by norm_num)
  nlinarith [hp, hB]

theorem cd_curve_1_lt : cd_curve 1 < 28.1 := by
  unfold cd_curve
  rw [Real.one_rpow, Real.one_rpow]
  norm_num

theorem cd_curve_1_gt : 27.6 < cd_curve 1 := by
  unfold cd_curve
  rw [Real.one_rpow, Real.one_rpow]
  norm_num

theorem cd_curve_10_lt : cd_curve 10 < 4.62 := by
  unfold cd_curve
  have hu : (10 : ℝ) ^ (0.687 : ℝ) ≤ 5 := by
    rw [show (0.687 : ℝ) = ((687 : ℕ) : ℝ) / ((1000 : ℕ) : ℝ) by norm_num]
    exact rpow_ratio_le (by norm_num) (by norm_num) (by norm_num)
      (by norm_num)
  have hB := cd_second_term_lt (show (0 : ℝ) < 10 by norm_num)
  nlinarith [hu, hB]

theorem cd_curve_10_gt : 3.84 < cd_curve 10 := by
  unfold cd_curve
  have hl : (4 : ℝ) ≤ (10 : ℝ) ^ (0.687 : ℝ) := by
    rw [show (0.687 : ℝ) = ((687 : ℕ) : ℝ) / ((1000 : ℕ) : ℝ) by norm_num]
    exact le_rpow_ratio (by norm_num) (by norm_num) (by norm_num)
      (by norm_num)
  have hB := cd_second_term_pos (show (0 : ℝ) < 10 by norm_num)
  nlinarith [hl, hB]

theorem cd_curve_100_lt : cd_curve 100 < 1.524 := by
  unfold cd_curve
  have hu : (100 : ℝ) ^ (0.687 : ℝ) ≤ 24 := by
    rw [show (0.687 : ℝ) = ((687 : ℕ) : ℝ) / ((1000 : ℕ) : ℝ) by norm_num]
    exact rpow_ratio_le (by norm_num) (by norm_num) (by norm_num)
      (by norm_num)
  have hB := cd_second_term_lt (show (0 : ℝ) < 100 by norm_num)
  nlinarith [hu, hB]

theorem cd_curve_100_gt : 1.068 < cd_curve 100 := by
  unfold cd_curve
  have hl : (23 : ℝ) ≤ (100 : ℝ) ^ (0.687 : ℝ) := by
    rw [show (0.687 : ℝ) = ((687 : ℕ) : ℝ) / ((1000 : ℕ) : ℝ) by norm_num]
    exact le_rpow_ratio (by norm_num) (by norm_num) (by norm_num)
      (by norm_num)
  have hB := cd_second_term_pos (show (0 : ℝ) < 100 by norm_num)
  nlinarith [hl, hB]

theorem cd_curve_500_lt : cd_curve 500 < 0.99 := by
  unfold cd_curve
  have hu : (500 : ℝ) ^ (0.687 : ℝ) ≤ 72 := by
    rw [show (0.687 : ℝ) = ((687 : ℕ) : ℝ) / ((1000 : ℕ) : ℝ) by norm_num]
    exact rpow_ratio_le (by norm_num) (by norm_num) (by norm_num)
      (by norm_num)
  have hB := cd_second_term_lt (show (0 : ℝ) < 500 by norm_num)
  nlinarith [hu, hB]

/-- C9: the drag correlation is strictly decreasing across the
representative Reynolds numbers `0.1, 1, 10, 100, 500`: each consecutive
pair `a < b` satisfies `find_cd_from_rep a > find_cd_from_rep b`. -/
theorem claim_C9_drag_monotone_points :
    find_cd_from_rep 0.1 > find_cd_from_rep 1 ∧
    find_cd_from_rep 1 > find_cd_from_rep 10 ∧
    find_cd_from_rep 10 > find_cd_from_rep 100 ∧
    find_cd_from_rep 100 > find_cd_from_rep 500 := by
  rw [find_cd_of_pos (by norm_num : (0 : ℝ) < 0.1),
    find_cd_of_pos (by norm_num : (0 : ℝ) < 1),
    find_cd_of_pos (by norm_num : (0 : ℝ) < 10),
    find_cd_of_pos (by norm_num : (0 : ℝ) < 100),
    find_cd_of_pos (by norm_num : (0 : ℝ) < 500)]
  refine ⟨EReal.coe_lt_coe_iff.mpr ?_, EReal.coe_lt_coe_iff.mpr ?_,
    EReal.coe_lt_coe_iff.mpr ?_, EReal.coe_lt_coe_iff.mpr ?_⟩
  · linarith [cd_curve_1_lt, cd_curve_01_gt]
  · linarith [cd_curve_10_lt, cd_curve_1_gt]
  · linarith [cd_curve_100_lt, cd_curve_10_gt]
  · linarith [cd_curve_500_lt, cd_curve_100_gt]

/-- C10 (implicit): `find_cd_from_rep` is strictly positive (a positive real
or the `⊤` sentinel) on every real input; consequently every loop state with
a positive guess — in particular every state reachable from the seed `0.4` —
avoids the divergence abort, and no run of the pipeline ever produces the
`cdDiverged` outcome. -/
theorem claim_C10_divergence_unreachable :
    (∀ re_p : ℝ, 0 < find_cd_from_rep re_p) ∧
    (∀ d g rho_l rho_g mu_g tol : ℝ, ∀ fuel i : ℕ, ∀ cd : EReal, 0 < cd →
      solveLoop d g rho_l rho_g mu_g tol fuel i cd ≠ .diverged) ∧
    (∀ p : FlowParameters, run_all_calculations p ≠ .cdDiverged) := by
  refine ⟨find_cd_pos, fun d g rl rg mg tol fuel i cd hcd =>
    solveLoop_ne_diverged d g rl rg mg tol fuel i cd hcd, fun p => ?_⟩
  unfold run_all_calculations
  split
  · intro h; cases h
  · unfold after_diameter
    split
    · next hs =>
      exact absurd hs (solveLoop_ne_diverged _ _ _ _ _ _ _ _ _
        (EReal.coe_pos.mpr (by norm_num)))
    · exact onset_and_final_ne_cdDiverged _ _ _ _ _ _
    · exact onset_and_final_ne_cdDiverged _ _ _ _ _ _

/-- Witness for C10: the seed `0.4` is a positive guess, and a loop started
there does not hit the divergence abort. -/
theorem claim_C10_witness :
    (0 : EReal) < ((0.4 : ℝ) : EReal) ∧
    solveLoop 1 1 1 1 1 1 0 0 ((0.4 : ℝ) : EReal) ≠ .diverged :=
  ⟨EReal.coe_pos.mpr (by norm_num),
   claim_C10_divergence_unreachable.2.1 1 1 1 1 1 1 0 0 _
     (EReal.coe_pos.mpr (by norm_num))⟩

end Entrainment
